import Mathlib

/-!
Verification of the `1qubit_CrossmonExample.ipynb` notebook: a sequential
script that derives a target qubit capacitance and inductance from a desired
transition frequency and anharmonicity, lays out a TransmonCross in a CAD
framework, drives two external electromagnetic simulations (Q3D capacitance
extraction and an HFSS eigenmode run), and finally recomputes the frequency
from the rounded values.

The notebook's local computations are embedded as real-valued definitions
(transliterating the Python division chains), and the script's sequence of
actions as a concrete list of steps.
-/

namespace Crossmon

/-- Electron charge constant from the derivation cell: `e = 1.60217657e-19`. -/
def e : ℝ := 1.60217657e-19

/-- Planck constant from the derivation cell: `h = 6.62606957e-34`. -/
def h : ℝ := 6.62606957e-34

/-- Target anharmonicity from the derivation cell: `alpha = 250e6`. -/
def alpha : ℝ := 250e6

/-- Target transition frequency from the derivation cell: `f = 5e9`
(the first binding of `f` in the notebook). -/
def f_target : ℝ := 5e9

/-- Derived capacitance, transliterating `C = e**2/2/h/alpha`
(Python's left-associated division chain). -/
noncomputable def C : ℝ := e ^ 2 / 2 / h / alpha

/-- Derived inductance, transliterating `L = 1/C/(2*np.pi*f)**2`. -/
noncomputable def L : ℝ := 1 / C / (2 * Real.pi * f_target) ^ 2

/-- The inductance literal `13e-9` used in the final frequency-check cell. -/
def L_check : ℝ := 13e-9

/-- The capacitance literal `78e-15` used in the final frequency-check cell. -/
def C_check : ℝ := 78e-15

/-- The frequency recomputed in the final cell,
transliterating `f = 1/np.sqrt(13e-9*78e-15)/2/np.pi`. -/
noncomputable def f_check : ℝ := 1 / Real.sqrt (L_check * C_check) / 2 / Real.pi

/-- The derived capacitance as a function of the anharmonicity
(the closed form `e**2/2/h/alpha` with `alpha` generic). -/
noncomputable def Cfun (a : ℝ) : ℝ := e ^ 2 / 2 / h / a

/-- The derived inductance as a function of anharmonicity and frequency
(the closed form `1/C/(2*np.pi*f)**2` with `alpha`, `f` generic). -/
noncomputable def Lfun (a fr : ℝ) : ℝ := 1 / Cfun a / (2 * Real.pi * fr) ^ 2

/-- C1: the derivation cell computes `C = e^2/(2*h*alpha)` and
`L = 1/((2*pi*f)^2*C)` from `f = 5e9` and `alpha = 250e6`, with
`e = 1.60217657e-19` and `h = 6.62606957e-34`. -/
theorem derivation_formulas :
    C = e ^ 2 / (2 * h * alpha) ∧
    L = 1 / ((2 * Real.pi * f_target) ^ 2 * C) ∧
    e = 1.60217657e-19 ∧ h = 6.62606957e-34 ∧
    alpha = 250e6 ∧ f_target = 5e9 := by
  refine ⟨?_, ?_, rfl, rfl, rfl, rfl⟩
  · rw [C]; ring
  · rw [L]; ring

lemma e_pos : 0 < e := by norm_num [e]

lemma h_pos : 0 < h := by norm_num [h]

lemma Cfun_pos {a : ℝ} (ha : 0 < a) : 0 < Cfun a :=
  div_pos (div_pos (div_pos (pow_pos e_pos 2) two_pos) h_pos) ha

lemma twoPiF_pos {fr : ℝ} (hf : 0 < fr) : 0 < 2 * Real.pi * fr :=
  mul_pos (mul_pos two_pos Real.pi_pos) hf

lemma Lfun_pos {a fr : ℝ} (ha : 0 < a) (hf : 0 < fr) : 0 < Lfun a fr :=
  div_pos (one_div_pos.mpr (Cfun_pos ha)) (pow_pos (twoPiF_pos hf) 2)

lemma LC_product {a fr : ℝ} (ha : 0 < a) (hf : 0 < fr) :
    Lfun a fr * Cfun a = 1 / (2 * Real.pi * fr) ^ 2 := by
  have hC := (Cfun_pos ha).ne'
  have hX := (pow_pos (twoPiF_pos hf) 2).ne'
  unfold Lfun
  field_simp

/-- C2: for every positive frequency and positive anharmonicity, substituting
the derived `C` and `L` back into the transition-frequency formula
`1/(2*pi*sqrt(L*C))` recovers exactly the target frequency. -/
theorem frequency_roundtrip (a fr : ℝ) (ha : 0 < a) (hf : 0 < fr) :
    1 / (2 * Real.pi * Real.sqrt (Lfun a fr * Cfun a)) = fr := by
  have hX : 0 < 2 * Real.pi * fr := twoPiF_pos hf
  rw [LC_product ha hf,
    show (1 : ℝ) / (2 * Real.pi * fr) ^ 2 = (1 / (2 * Real.pi * fr)) ^ 2 by
      rw [div_pow, one_pow],
    Real.sqrt_sq (one_div_pos.mpr hX).le]
  have hpi := Real.pi_ne_zero
  field_simp

/-- Witness for C2 at the notebook's inputs `alpha = 250e6`, `f = 5e9`. -/
theorem frequency_roundtrip_witness :
    (0 : ℝ) < 250e6 ∧ (0 : ℝ) < 5e9 ∧
    1 / (2 * Real.pi * Real.sqrt (Lfun 250e6 5e9 * Cfun 250e6)) = 5e9 :=
  ⟨by norm_num, by norm_num,
    frequency_roundtrip 250e6 5e9 (by norm_num) (by norm_num)⟩

/-- C9: under the precondition `alpha > 0` and `f > 0`, the derived values are
positive and every denominator and square-root argument appearing in the
derivation and the frequency formula is nonzero/nonnegative, so no division by
zero or square root of a negative number occurs. -/
theorem derivation_total (a fr : ℝ) (ha : 0 < a) (hf : 0 < fr) :
    0 < Cfun a ∧ 0 < Lfun a fr ∧ 0 < Lfun a fr * Cfun a ∧
    h ≠ 0 ∧ a ≠ 0 ∧ Cfun a ≠ 0 ∧ (2 * Real.pi * fr) ^ 2 ≠ 0 ∧
    Real.sqrt (Lfun a fr * Cfun a) ≠ 0 ∧
    2 * Real.pi * Real.sqrt (Lfun a fr * Cfun a) ≠ 0 := by
  have hC := Cfun_pos ha
  have hL := Lfun_pos ha hf
  have hLC : 0 < Lfun a fr * Cfun a := mul_pos hL hC
  have hs : 0 < Real.sqrt (Lfun a fr * Cfun a) := Real.sqrt_pos.mpr hLC
  exact ⟨hC, hL, hLC, h_pos.ne', ha.ne', hC.ne',
    (pow_pos (twoPiF_pos hf) 2).ne', hs.ne',
    (mul_pos (mul_pos two_pos Real.pi_pos) hs).ne'⟩

/-- Witness for C9 at the notebook's inputs `alpha = 250e6`, `f = 5e9`. -/
theorem derivation_total_witness :
    (0 : ℝ) < 250e6 ∧ (0 : ℝ) < 5e9 ∧
    0 < Cfun 250e6 ∧ 0 < Lfun 250e6 5e9 :=
  ⟨by norm_num, by norm_num,
    (derivation_total 250e6 5e9 (by norm_num) (by norm_num)).1,
    (derivation_total 250e6 5e9 (by norm_num) (by norm_num)).2.1⟩

/-- C10: the product of the derived values satisfies
`L * C = 1/(2*pi*f)^2` exactly (independent of the anharmonicity), and for a
fixed frequency `C` is strictly decreasing, `L` strictly increasing, in the
anharmonicity. -/
theorem LC_invariant (fr a a1 a2 : ℝ) (hf : 0 < fr) (ha : 0 < a)
    (h1 : 0 < a1) (h2 : 0 < a2) :
    Lfun a fr * Cfun a = 1 / (2 * Real.pi * fr) ^ 2 ∧
    (a1 < a2 → Cfun a2 < Cfun a1) ∧
    (a1 < a2 → Lfun a1 fr < Lfun a2 fr) := by
  have hmono : a1 < a2 → Cfun a2 < Cfun a1 := fun hlt =>
    div_lt_div_of_pos_left
      (div_pos (div_pos (pow_pos e_pos 2) two_pos) h_pos) h1 hlt
  refine ⟨LC_product ha hf, hmono, fun hlt => ?_⟩
  unfold Lfun
  exact (div_lt_div_iff_of_pos_right (pow_pos (twoPiF_pos hf) 2)).mpr
    (one_div_lt_one_div_of_lt (Cfun_pos h2) (hmono hlt))

/-- Witness for C10 at `f = 5e9`, `alpha = 250e6` against `alpha = 300e6`. -/
theorem LC_invariant_witness :
    (0 : ℝ) < 5e9 ∧ (0 : ℝ) < 250e6 ∧ (0 : ℝ) < 300e6 ∧
    (Lfun 250e6 5e9 * Cfun 250e6 = 1 / (2 * Real.pi * 5e9) ^ 2 ∧
     ((250e6 : ℝ) < 300e6 → Cfun 300e6 < Cfun 250e6) ∧
     ((250e6 : ℝ) < 300e6 → Lfun 250e6 5e9 < Lfun 300e6 5e9)) :=
  ⟨by norm_num, by norm_num, by norm_num,
    LC_invariant 5e9 250e6 250e6 300e6 (by norm_num) (by norm_num)
      (by norm_num) (by norm_num)⟩

lemma C_pos : 0 < C := by norm_num [C, e, h, alpha]

lemma L_nH_repr :
    L / 1e-9 = 1 / (C * (2 * Real.pi * f_target) ^ 2 * 1e-9) := by
  rw [L]; ring

lemma L_nH_bounds :
    13.076920924612368 < L / 1e-9 ∧ L / 1e-9 < 13.076920924612369 := by
  have hpi1 : (3.14159265358979323846 : ℝ) < Real.pi := Real.pi_gt_d20
  have hpi2 : Real.pi < 3.14159265358979323847 := Real.pi_lt_d20
  have hXlo : (2 * 3.14159265358979323846 * 5e9 : ℝ) <
      2 * Real.pi * f_target := by
    rw [f_target]; nlinarith
  have hXhi : 2 * Real.pi * f_target <
      (2 * 3.14159265358979323847 * 5e9 : ℝ) := by
    rw [f_target]; nlinarith
  have hX0 : (0 : ℝ) < 2 * 3.14159265358979323846 * 5e9 := by norm_num
  have hsqlo : ((2 * 3.14159265358979323846 * 5e9 : ℝ)) ^ 2 < (2 * Real.pi * f_target) ^ 2 :=
    pow_lt_pow_left₀ hXlo hX0.le two_ne_zero
  have hsqhi : (2 * Real.pi * f_target) ^ 2 < ((2 * 3.14159265358979323847 * 5e9 : ℝ)) ^ 2 :=
    pow_lt_pow_left₀ hXhi (hX0.trans hXlo).le two_ne_zero
  have hDpos : 0 < C * (2 * Real.pi * f_target) ^ 2 * 1e-9 :=
    mul_pos (mul_pos C_pos (pow_pos (hX0.trans hXlo) 2)) (by norm_num)
  constructor
  · rw [L_nH_repr]
    have hDhi : C * (2 * Real.pi * f_target) ^ 2 * 1e-9 <
        C * ((2 * 3.14159265358979323847 * 5e9 : ℝ)) ^ 2 * 1e-9 := by
      have := mul_lt_mul_of_pos_left hsqhi C_pos
      nlinarith
    calc (13.076920924612368 : ℝ)
        < 1 / (C * ((2 * 3.14159265358979323847 * 5e9 : ℝ)) ^ 2 * 1e-9) := by
          norm_num [C, e, h, alpha]
      _ < 1 / (C * (2 * Real.pi * f_target) ^ 2 * 1e-9) :=
          one_div_lt_one_div_of_lt hDpos hDhi
  · rw [L_nH_repr]
    have hDlopos : (0 : ℝ) < C * ((2 * 3.14159265358979323846 * 5e9 : ℝ)) ^ 2 * 1e-9 := by
      norm_num [C, e, h, alpha]
    have hDlo : C * ((2 * 3.14159265358979323846 * 5e9 : ℝ)) ^ 2 * 1e-9 <
        C * (2 * Real.pi * f_target) ^ 2 * 1e-9 := by
      have := mul_lt_mul_of_pos_left hsqlo C_pos
      nlinarith
    calc 1 / (C * (2 * Real.pi * f_target) ^ 2 * 1e-9)
        < 1 / (C * ((2 * 3.14159265358979323846 * 5e9 : ℝ)) ^ 2 * 1e-9) :=
          one_div_lt_one_div_of_lt hDlopos hDlo
      _ < 13.076920924612369 := by norm_num [C, e, h, alpha]

/-- C6: in exact arithmetic, the first printed value `C/1e-15` agrees with the
displayed `77.4809178907237` (to well within the printed precision), and the
second, `L/1e-9`, agrees with the displayed `13.076920924612372` to within
`1e-4`. -/
theorem printed_values_accurate :
    |C / 1e-15 - 77.4809178907237| < 1e-13 ∧
    |L / 1e-9 - 13.076920924612372| < 1e-13 := by
  constructor
  · rw [abs_sub_lt_iff]
    constructor <;> norm_num [C, e, h, alpha]
  · rw [abs_sub_lt_iff]
    have hb := L_nH_bounds
    constructor <;> linarith [hb.1, hb.2]

lemma round_L_nH : round (L / 1e-9) = 13 := by
  have hb := L_nH_bounds
  rw [round_eq]
  have : (⌊L / 1e-9 + 1 / 2⌋ : ℤ) = 13 := by
    rw [Int.floor_eq_iff]
    constructor <;> push_cast <;> linarith [hb.1, hb.2]
  exact this

/-- The two external simulation backends the notebook drives over the
remote Ansys API: Q3D (capacitance extraction) and HFSS (eigenmode). -/
inductive Backend
  | q3d
  | hfss
deriving DecidableEq

/-- One action of the sequential script, transliterated cell by cell from the
notebook: imports, GUI operations, component instantiation, analysis setup,
remote simulation runs, and scalar prints. -/
inductive Step
  | loadExtension (ext : String)
  | importModule (m : String)
  | assignVar (x : String) (v : ℝ)
  | emitVal (v : ℝ)
  | createDesign (kind : String)
  | openGUI
  | setOverwrite (b : Bool)
  | instantiate (componentType objName : String) (options : List (String × String))
  | guiRebuild
  | guiAutoscale
  | createAnalysis (cls : String) (backend : Backend)
  | setSetupField (field value : String)
  | setSetupVars (vars : List (String × String))
  | runSim (backend : Backend)
  | display (what : String)

/-- Options passed to the `TransmonCross` constructor for `Q1`. -/
def q1options : List (String × String) :=
  [("cross_width", "20um"), ("cross_length", "145um"), ("cross_gap", "20um"),
   ("hfss_inductance", "13nH"), ("pos_x", "2mm")]

/-- The HFSS eigenmode setup variables `Dict(Lj= '13 nH', Cj= '0 fF')`. -/
def setupVars : List (String × String) := [("Lj", "13 nH"), ("Cj", "0 fF")]

/-- First code cell: constants, derivation of `C` and `L`, two prints. -/
noncomputable def cellDerivation : List Step :=
  [.importModule "numpy", .assignVar "e" e, .assignVar "h" h,
   .assignVar "alpha" alpha, .assignVar "f" f_target,
   .assignVar "C" C, .assignVar "L" L,
   .emitVal (C / 1e-15), .emitVal (L / 1e-9)]

/-- Second code cell: autoreload and qiskit-metal imports. -/
def cellImports : List Step :=
  [.loadExtension "autoreload", .importModule "qiskit_metal",
   .importModule "qiskit_metal.designs", .importModule "qiskit_metal.draw",
   .importModule "qiskit_metal.MetalGUI"]

/-- Third code cell: planar design creation and GUI opening. -/
def cellDesign : List Step := [.createDesign "DesignPlanar", .openGUI]

/-- Fourth code cell: the `TransmonCross` instantiation and GUI refresh. -/
def cellQubit : List Step :=
  [.importModule "qiskit_metal.qlibrary.qubits.transmon_cross",
   .setOverwrite true,
   .instantiate "TransmonCross" "Q1" q1options,
   .guiRebuild, .guiAutoscale]

/-- Fifth code cell: the LOM analysis and the Q3D capacitance run. -/
def cellQ3D : List Step :=
  [.importModule "qiskit_metal.analyses.quantization",
   .createAnalysis "LOManalysis" .q3d,
   .runSim .q3d,
   .display "capacitance_matrix"]

/-- Sixth code cell: the EPR analysis and HFSS eigenmode setup. -/
def cellHfssSetup : List Step :=
  [.importModule "pyEPR", .importModule "qiskit_metal.analyses.quantization",
   .createAnalysis "EPRanalysis" .hfss,
   .setSetupField "max_passes" "12",
   .setSetupField "max_delta_f" "0.1",
   .setSetupField "min_freq_ghz" "1",
   .setSetupField "n_modes" "1",
   .setSetupVars setupVars,
   .display "setup"]

/-- Seventh code cell: the HFSS eigenmode run. -/
def cellHfssRun : List Step := [.runSim .hfss]

/-- Eighth code cell: the final frequency check from the rounded values. -/
noncomputable def cellFinalCheck : List Step :=
  [.importModule "numpy", .assignVar "f" f_check, .emitVal (f_check / 1e9)]

/-- The whole notebook as one sequential script, cells in document order. -/
noncomputable def script : List Step :=
  cellDerivation ++ cellImports ++ cellDesign ++ cellQubit ++
  cellQ3D ++ cellHfssSetup ++ cellHfssRun ++ cellFinalCheck

/-- The backends contacted by `sim.run` remote-procedure calls, in order. -/
def runsOf : List Step → List Backend
  | [] => []
  | .runSim b :: rest => b :: runsOf rest
  | _ :: rest => runsOf rest

/-- The scalar values printed by the script, in order. -/
def emitted : List Step → List ℝ
  | [] => []
  | .emitVal v :: rest => v :: emitted rest
  | _ :: rest => emitted rest

/-- The CAD components instantiated by the script, in order
(component type, object name, options). -/
def componentsOf : List Step → List (String × String × List (String × String))
  | [] => []
  | .instantiate ct n o :: rest => (ct, n, o) :: componentsOf rest
  | _ :: rest => componentsOf rest

/-- Whether a step is the HFSS eigenmode `sim.run` call. -/
def Step.isHfssRun : Step → Bool
  | .runSim .hfss => true
  | _ => false

/-- The steps of a script strictly after the (first) HFSS eigenmode run. -/
def afterHfssRun (l : List Step) : List Step :=
  (l.dropWhile (fun s => ! s.isHfssRun)).drop 1

/-- C3: the script issues exactly two remote simulation runs over its whole
run — the Q3D capacitance-matrix extraction and then the HFSS eigenmode
run — and no other backend run calls. -/
theorem two_backend_runs : runsOf script = [Backend.q3d, Backend.hfss] := by
  rfl

/-- C4: the script instantiates exactly one parametrized CAD object — a
`TransmonCross` named `Q1` with the five documented options — and no other
component. -/
theorem one_component_instantiated :
    componentsOf script =
      [("TransmonCross", "Q1",
        [("cross_width", "20um"), ("cross_length", "145um"),
         ("cross_gap", "20um"), ("hfss_inductance", "13nH"),
         ("pos_x", "2mm")])] := by
  rfl

lemma sqrt_LC_check_gt : (3e-11 : ℝ) < Real.sqrt (L_check * C_check) := by
  have hprod : (L_check * C_check : ℝ) = 1.014e-21 := by
    norm_num [L_check, C_check]
  rw [hprod]
  exact (Real.lt_sqrt (by norm_num)).mpr (by norm_num)

lemma f_check_GHz_lt : f_check / 1e9 < 10 := by
  have hs := sqrt_LC_check_gt
  have hs0 : (0 : ℝ) < Real.sqrt (L_check * C_check) :=
    lt_trans (by norm_num) hs
  have hpi : (3 : ℝ) < Real.pi := Real.pi_gt_three
  have heq : f_check / 1e9 =
      1 / (Real.sqrt (L_check * C_check) * 2 * Real.pi * 1e9) := by
    rw [f_check]; ring
  rw [heq]
  have hD : (0.18 : ℝ) < Real.sqrt (L_check * C_check) * 2 * Real.pi * 1e9 := by
    nlinarith
  calc 1 / (Real.sqrt (L_check * C_check) * 2 * Real.pi * 1e9)
      < 1 / 0.18 := one_div_lt_one_div_of_lt (by norm_num) hD
    _ < 10 := by norm_num

/-- C5 as stated is refuted at the concrete script: strictly after the HFSS
eigenmode run the script performs exactly one print — the recomputed frequency
(a value below 10) — and in particular not the capacitance print in fF (whose
value exceeds 77) nor the inductance print; those two prints happen in the
first cell, before any simulation, and no comparison is computed. -/
theorem prints_after_sims_refuted :
    emitted (afterHfssRun script) = [f_check / 1e9] ∧
    (emitted (afterHfssRun script)).length = 1 ∧
    f_check / 1e9 < 10 ∧ 77 < C / 1e-15 := by
  refine ⟨rfl, rfl, f_check_GHz_lt, ?_⟩
  norm_num [C, e, h, alpha]

/-- C5 amended: the script prints the derived capacitance in fF and the
inductance in nH in the derivation cell, before the layout and the
simulations; after the simulations it prints exactly one scalar, the
frequency recomputed from the rounded values 13 nH and 78 fF; the comparison
against the target and simulated frequencies is made in the narrative text,
not computed by the code. -/
theorem script_scalar_prints :
    emitted script = [C / 1e-15, L / 1e-9, f_check / 1e9] ∧
    emitted cellDerivation = [C / 1e-15, L / 1e-9] ∧
    emitted (afterHfssRun script) = [f_check / 1e9] ∧
    f_check = 1 / Real.sqrt (13e-9 * 78e-15) / 2 / Real.pi :=
  ⟨rfl, rfl, rfl, rfl⟩

/-- The decimal value of a digit string, if all characters are digits. -/
def natOfDigits (cs : List Char) : Option ℕ :=
  cs.foldl (fun acc c => acc.bind
    (fun n => if c.isDigit then some (10 * n + (c.toNat - 48)) else none))
    (some 0)

/-- The leading digit characters of a value-with-unit string. -/
def numPart (cs : List Char) : List Char := cs.takeWhile Char.isDigit

/-- The unit characters of a value-with-unit string, space skipped. -/
def unitPart (cs : List Char) : List Char :=
  (cs.dropWhile Char.isDigit).dropWhile Char.isWhitespace

/-- Parse a string such as `"13nH"` or `"13 nH"` as a whole number of
nanohenries (the unit convention of the CAD options and the HFSS setup). -/
def inductance_nH (s : String) : Option ℕ :=
  let cs := s.toList
  if unitPart cs = ['n', 'H'] ∧ numPart cs ≠ [] then natOfDigits (numPart cs)
  else none

/-- C8: the one inductance value 13 nH — the derived `L` rounded to the
nearest nanohenry — appears consistently in all three downstream places: the
`TransmonCross` option `hfss_inductance = '13nH'`, the HFSS setup variable
`Lj = '13 nH'`, and the literal `13e-9` of the final frequency check. -/
theorem inductance_consistency :
    round (L / 1e-9) = 13 ∧
    (q1options.lookup "hfss_inductance").bind inductance_nH = some 13 ∧
    (setupVars.lookup "Lj").bind inductance_nH = some 13 ∧
    L_check = 13 * 1e-9 := by
  refine ⟨round_L_nH, ?_, ?_, by norm_num [L_check]⟩
  · decide
  · decide

/-- Arithmetic expressions occurring in the notebook's computation cells. -/
inductive Expr
  | lit (v : ℝ)
  | evar (x : String)
  | epi
  | mul (a b : Expr)
  | div (a b : Expr)
  | pow (a : Expr) (n : ℕ)
  | sqrt (a : Expr)

/-- Evaluate an expression in an environment of Python variables. -/
noncomputable def Expr.eval (env : String → ℝ) : Expr → ℝ
  | .lit v => v
  | .evar x => env x
  | .epi => Real.pi
  | .mul a b => a.eval env * b.eval env
  | .div a b => a.eval env / b.eval env
  | .pow a n => a.eval env ^ n
  | .sqrt a => Real.sqrt (a.eval env)

/-- A statement of a computation cell: an assignment or a print. -/
inductive Stmt
  | assign (x : String) (ex : Expr)
  | emit (ex : Expr)

/-- Execute statements sequentially, threading the variable environment and
collecting the printed values in order. -/
noncomputable def execProg (env : String → ℝ) : List Stmt → (String → ℝ) × List ℝ
  | [] => (env, [])
  | .assign x ex :: rest =>
      execProg (fun y => if y = x then ex.eval env else env y) rest
  | .emit ex :: rest =>
      let r := execProg env rest
      (r.1, ex.eval env :: r.2)

/-- The derivation cell as a program: constant assignments, the `C` and `L`
division chains, and the two prints. -/
def derivProg : List Stmt :=
  [.assign "e" (.lit 1.60217657e-19),
   .assign "h" (.lit 6.62606957e-34),
   .assign "alpha" (.lit 250e6),
   .assign "f" (.lit 5e9),
   .assign "C" (.div (.div (.div (.pow (.evar "e") 2) (.lit 2)) (.evar "h"))
     (.evar "alpha")),
   .assign "L" (.div (.div (.lit 1) (.evar "C"))
     (.pow (.mul (.mul (.lit 2) .epi) (.evar "f")) 2)),
   .emit (.div (.evar "C") (.lit 1e-15)),
   .emit (.div (.evar "L") (.lit 1e-9))]

/-- The final frequency-check cell as a program: the assignment
`f = 1/np.sqrt(13e-9*78e-15)/2/np.pi` and the print of `f/1e9`. -/
def checkProg : List Stmt :=
  [.assign "f" (.div (.div (.div (.lit 1)
     (.sqrt (.mul (.lit 13e-9) (.lit 78e-15)))) (.lit 2)) .epi),
   .emit (.div (.evar "f") (.lit 1e9))]

lemma derivProg_prints (env : String → ℝ) :
    (execProg env derivProg).2 = [C / 1e-15, L / 1e-9] := rfl

lemma derivProg_varC (env : String → ℝ) :
    (execProg env derivProg).1 "C" = C := rfl

lemma derivProg_varL (env : String → ℝ) :
    (execProg env derivProg).1 "L" = L := rfl

lemma checkProg_prints (env : String → ℝ) :
    (execProg env checkProg).2 = [f_check / 1e9] := rfl

/-- C7: the derivation cell and the final frequency-check cell are
deterministic and depend on no hidden state: executed from any two initial
environments they compute identical values for `C` and `L` and produce
identical printed outputs. -/
theorem cells_deterministic (env1 env2 : String → ℝ) :
    (execProg env1 derivProg).2 = (execProg env2 derivProg).2 ∧
    (execProg env1 derivProg).1 "C" = (execProg env2 derivProg).1 "C" ∧
    (execProg env1 derivProg).1 "L" = (execProg env2 derivProg).1 "L" ∧
    (execProg env1 checkProg).2 = (execProg env2 checkProg).2 := by
  refine ⟨?_, ?_, ?_, ?_⟩
  · rw [derivProg_prints, derivProg_prints]
  · rw [derivProg_varC, derivProg_varC]
  · rw [derivProg_varL, derivProg_varL]
  · rw [checkProg_prints, checkProg_prints]

end Crossmon
